import Mathlib

/-!
Verification of the package facade `src/hatch_mcp_server/__init__.py`.

The module body consists of three executable statements, run in order at
load time:

  __version__ = "0.2.0"
  from .hatch_mcp import HatchMCP
  __all__ = ["HatchMCP"]   (source has single quotes)

We embed this as a tiny statement language over Python objects, executed
against an import environment (which sibling modules are resolvable, and
which attributes they define).  The execution state records the own
module namespace of the facade together with an effect trace (I/O operations,
threads spawned, writes to process-wide state outside the namespace), so
that frame properties are statable.  A failure during the body carries the
in-progress state, and the importer-facing load discards the partial
module on failure, as CPython removes a partially initialised module from
`sys.modules` when its body raises.
-/

/-- Runtime objects relevant to the facade: string literals, lists of
string literals (the form of `__all__`), and opaque external objects
(classes, module objects) identified by an identity token, so that
Python object identity is modelled by equality of tokens. -/
inductive PyObj where
  | str : String → PyObj
  | strList : List String → PyObj
  | ref : Nat → PyObj
deriving DecidableEq, Repr

/-- A module namespace: an association list from names to objects, most
recent binding first. -/
abbrev NS := List (String × PyObj)

/-- Look a name up in a namespace (most recent binding wins). -/
def NS.lookup : NS → String → Option PyObj
  | [], _ => none
  | (k, v) :: rest, n => if k = n then some v else NS.lookup rest n

/-- A resolvable sibling module: its module object and its attributes. -/
structure PyModule where
  obj : PyObj
  attrs : NS
deriving DecidableEq, Repr

/-- The import environment: which sibling modules of the package are
resolvable, by name. -/
def ImportEnv := String → Option PyModule

/-- Errors raised while executing a module body: the sibling module is
absent, or it is present but does not define the requested attribute.
Both are resolution (import) errors. -/
inductive LoadError where
  | moduleNotFound : String → LoadError
  | attrNotFound : String → String → LoadError
deriving DecidableEq, Repr

/-- Statement forms.  The facade only uses `assign` and `importFrom`;
the remaining constructors let the language express I/O, thread creation
and writes to process-wide state, so that their absence from the facade
body is a statement about the code rather than about the language. -/
inductive Stmt where
  | assign : String → PyObj → Stmt
  | importFrom : String → String → Stmt
  | ioOp : String → Stmt
  | spawnThread : Stmt
  | writeGlobal : String → PyObj → Stmt
deriving DecidableEq, Repr

/-- Execution state of a module load: the own namespace of the module plus an
effect trace of everything observable outside that namespace. -/
structure LoadState where
  ns : NS
  ioTrace : List String
  threadsSpawned : Nat
  globalWrites : List (String × PyObj)
deriving DecidableEq, Repr

/-- The state in which a module body starts executing. -/
def initState : LoadState := ⟨[], [], 0, []⟩

/-- Execute one statement.  `from .m import a` first resolves the sibling
module `m` (failing if it is absent), binds the submodule as an attribute
of the package, then looks up `a` on it (failing if undefined) and binds
the very object found — no copy, no wrapper.  Errors carry the
in-progress state. -/
def execStmt (env : ImportEnv) (s : LoadState) :
    Stmt → Except (LoadError × LoadState) LoadState
  | .assign n v => .ok ⟨(n, v) :: s.ns, s.ioTrace, s.threadsSpawned, s.globalWrites⟩
  | .importFrom m a =>
      match env m with
      | none => .error (.moduleNotFound m, s)
      | some md =>
          match NS.lookup md.attrs a with
          | none => .error (.attrNotFound m a, s)
          | some v =>
              .ok ⟨(a, v) :: (m, md.obj) :: s.ns,
                   s.ioTrace, s.threadsSpawned, s.globalWrites⟩
  | .ioOp op => .ok ⟨s.ns, s.ioTrace ++ [op], s.threadsSpawned, s.globalWrites⟩
  | .spawnThread => .ok ⟨s.ns, s.ioTrace, s.threadsSpawned + 1, s.globalWrites⟩
  | .writeGlobal loc v =>
      .ok ⟨s.ns, s.ioTrace, s.threadsSpawned, s.globalWrites ++ [(loc, v)]⟩

/-- Execute a list of statements in order, stopping at the first error. -/
def execStmts (env : ImportEnv) : List Stmt → LoadState →
    Except (LoadError × LoadState) LoadState
  | [], s => .ok s
  | st :: rest, s =>
      match execStmt env s st with
      | .error e => .error e
      | .ok s₂ => execStmts env rest s₂

/-- The executable body of `src/hatch_mcp_server/__init__.py`, statement
by statement (the docstring binds nothing). -/
def facadeBody : List Stmt :=
  [ .assign "__version__" (.str "0.2.0"),
    .importFrom "hatch_mcp" "HatchMCP",
    .assign "__all__" (.strList ["HatchMCP"]) ]

/-- Loading the facade, as observed by the importer: either the fully
initialised module state, or the error alone — CPython removes a
partially initialised module when its body raises, so the importer never
sees a partial namespace. -/
def loadFacade (env : ImportEnv) : Except LoadError LoadState :=
  match execStmts env facadeBody initState with
  | .ok s => .ok s
  | .error (e, _) => .error e

/-- The state after executing the first `n` statements of the facade
body (errors carry the in-progress state). -/
def loadUpTo (env : ImportEnv) (n : Nat) :
    Except (LoadError × LoadState) LoadState :=
  execStmts env (facadeBody.take n) initState

/-- The names bound by a wildcard import of a loaded module: the entries
of `__all__` when the module defines it as a list of strings, otherwise
every bound name not starting with an underscore. -/
def wildcardNames (s : LoadState) : List String :=
  match NS.lookup s.ns "__all__" with
  | some (.strList l) => l
  | _ => ((s.ns.map Prod.fst).filter (fun n => ¬ n.startsWith "_")).dedup

/-- The final state of a load attempt, successful or not (for stating
frame properties that hold on both outcomes). -/
def attemptState (env : ImportEnv) : LoadState :=
  match execStmts env facadeBody initState with
  | .ok s => s
  | .error (_, s) => s

/-- Whether a statement binds the given name in the own namespace of
the module. -/
def Stmt.bindsName : Stmt → String → Bool
  | .assign n _, m => n = m
  | .importFrom md a, m => md = m || a = m
  | _, _ => false

/-- A concrete environment for witnesses: `hatch_mcp` is resolvable and
defines `HatchMCP` as an opaque class object. -/
def goodEnv : ImportEnv :=
  fun m =>
    if m = "hatch_mcp" then
      some ⟨.ref 1, [("HatchMCP", .ref 0)]⟩
    else none

/-- A concrete environment in which no sibling module resolves. -/
def absentEnv : ImportEnv := fun _ => none

/-- A concrete environment in which `hatch_mcp` resolves but does not
define `HatchMCP`. -/
def emptyModuleEnv : ImportEnv :=
  fun m =>
    if m = "hatch_mcp" then some ⟨.ref 1, []⟩ else none

/-- Whether a statement is free of effects outside the own namespace of
the module: only plain assignments and the import binding qualify. -/
def Stmt.effectFree : Stmt → Bool
  | .assign _ _ => true
  | .importFrom _ _ => true
  | .ioOp _ => false
  | .spawnThread => false
  | .writeGlobal _ _ => false

/-- The state a successful load of the facade against `goodEnv`
produces. -/
def goodLoadState : LoadState :=
  ⟨[("__all__", .strList ["HatchMCP"]), ("HatchMCP", .ref 0),
    ("hatch_mcp", .ref 1), ("__version__", .str "0.2.0")], [], 0, []⟩

/-- The in-progress state after the version assignment and before the
statement performing the import. -/
def versionOnlyState : LoadState :=
  ⟨[("__version__", .str "0.2.0")], [], 0, []⟩

/-- Complete characterisation of a successful facade load: it happens
exactly when the sibling module resolves and defines `HatchMCP`, and the
resulting state is fully determined by the module object and that
attribute. -/
theorem loadFacade_ok_eq (env : ImportEnv) (s : LoadState)
    (h : loadFacade env = .ok s) :
    ∃ md v, env "hatch_mcp" = some md ∧
      NS.lookup md.attrs "HatchMCP" = some v ∧
      s = ⟨[("__all__", .strList ["HatchMCP"]), ("HatchMCP", v),
            ("hatch_mcp", md.obj), ("__version__", .str "0.2.0")],
           [], 0, []⟩ := by
  cases henv : env "hatch_mcp" with
  | none =>
      simp [loadFacade, facadeBody, execStmts, execStmt, henv] at h
  | some md =>
      cases hattr : NS.lookup md.attrs "HatchMCP" with
      | none =>
          simp [loadFacade, facadeBody, execStmts, execStmt, henv, hattr] at h
      | some v =>
          simp [loadFacade, facadeBody, execStmts, execStmt, henv, hattr,
                initState] at h
          exact ⟨md, v, rfl, hattr, h.symm⟩

/-- C1: after the facade loads successfully, the version attribute
`__version__` exists in its namespace and is exactly the string
`"0.2.0"`. -/
theorem facade_version_is_0_2_0 (env : ImportEnv) (s : LoadState)
    (h : loadFacade env = .ok s) :
    NS.lookup s.ns "__version__" = some (.str "0.2.0") := by
  obtain ⟨md, v, -, -, rfl⟩ := loadFacade_ok_eq env s h
  rfl

/-- Witness for C1 at the concrete environment `goodEnv`. -/
theorem facade_version_is_0_2_0_witness :
    NS.lookup goodLoadState.ns "__version__" = some (.str "0.2.0") :=
  facade_version_is_0_2_0 goodEnv goodLoadState rfl

/-- C2: after the facade loads successfully, its export manifest
`__all__` is exactly the single-element ordered sequence
`["HatchMCP"]`. -/
theorem facade_all_is_HatchMCP (env : ImportEnv) (s : LoadState)
    (h : loadFacade env = .ok s) :
    NS.lookup s.ns "__all__" = some (.strList ["HatchMCP"]) := by
  obtain ⟨md, v, -, -, rfl⟩ := loadFacade_ok_eq env s h
  rfl

/-- Witness for C2 at the concrete environment `goodEnv`. -/
theorem facade_all_is_HatchMCP_witness :
    NS.lookup goodLoadState.ns "__all__" = some (.strList ["HatchMCP"]) :=
  facade_all_is_HatchMCP goodEnv goodLoadState rfl

/-- C3: whenever the sibling module `hatch_mcp` is absent, or present
without defining `HatchMCP`, loading the facade fails, and the error the
importer receives is the resolution error itself, unmodified; the load
never succeeds with a missing symbol. -/
theorem facade_load_failure_propagates (env : ImportEnv) :
    (env "hatch_mcp" = none →
      loadFacade env = .error (.moduleNotFound "hatch_mcp")) ∧
    (∀ md, env "hatch_mcp" = some md →
      NS.lookup md.attrs "HatchMCP" = none →
      loadFacade env = .error (.attrNotFound "hatch_mcp" "HatchMCP")) := by
  constructor
  · intro h
    simp [loadFacade, facadeBody, execStmts, execStmt, h]
  · intro md h₁ h₂
    simp [loadFacade, facadeBody, execStmts, execStmt, h₁, h₂]

/-- Witness for C3: the absent-module and missing-attribute environments
both make the load fail with the corresponding resolution error. -/
theorem facade_load_failure_propagates_witness :
    loadFacade absentEnv = .error (.moduleNotFound "hatch_mcp") ∧
    loadFacade emptyModuleEnv = .error (.attrNotFound "hatch_mcp" "HatchMCP") :=
  ⟨(facade_load_failure_propagates absentEnv).1 rfl,
   (facade_load_failure_propagates emptyModuleEnv).2 ⟨.ref 1, []⟩ rfl rfl⟩

/-- C4: the name `HatchMCP` bound inside the facade refers to the very
object the collaborator module defines — the binding is the looked-up
object itself, with no copy, wrapper, transformation or validation. -/
theorem facade_export_identity (env : ImportEnv) (md : PyModule)
    (v : PyObj) (s : LoadState)
    (hm : env "hatch_mcp" = some md)
    (ha : NS.lookup md.attrs "HatchMCP" = some v)
    (h : loadFacade env = .ok s) :
    NS.lookup s.ns "HatchMCP" = some v := by
  obtain ⟨md₂, v₂, hm₂, ha₂, rfl⟩ := loadFacade_ok_eq env s h
  rw [hm] at hm₂
  cases hm₂
  rw [ha] at ha₂
  cases ha₂
  rfl

/-- Witness for C4 at the concrete environment `goodEnv`, whose
collaborator defines `HatchMCP` as the object `ref 0`. -/
theorem facade_export_identity_witness :
    NS.lookup goodLoadState.ns "HatchMCP" = some (.ref 0) :=
  facade_export_identity goodEnv ⟨.ref 1, [("HatchMCP", .ref 0)]⟩
    (.ref 0) goodLoadState rfl rfl rfl

/-- C5: loading is atomic at the importer interface — every load attempt
either succeeds with both the version constant and the `HatchMCP` symbol
available, or fails entirely with an error and no state at all. -/
theorem facade_load_atomic (env : ImportEnv) :
    (∃ s, loadFacade env = .ok s ∧
      NS.lookup s.ns "__version__" = some (.str "0.2.0") ∧
      (NS.lookup s.ns "HatchMCP").isSome = true) ∨
    (∃ e, loadFacade env = .error e) := by
  cases henv : env "hatch_mcp" with
  | none =>
      exact Or.inr ⟨.moduleNotFound "hatch_mcp",
        by simp [loadFacade, facadeBody, execStmts, execStmt, henv]⟩
  | some md =>
      cases hattr : NS.lookup md.attrs "HatchMCP" with
      | none =>
          exact Or.inr ⟨.attrNotFound "hatch_mcp" "HatchMCP",
            by simp [loadFacade, facadeBody, execStmts, execStmt, henv, hattr]⟩
      | some v =>
          refine Or.inl ⟨⟨[("__all__", .strList ["HatchMCP"]), ("HatchMCP", v),
            ("hatch_mcp", md.obj), ("__version__", .str "0.2.0")], [], 0, []⟩,
            ?_, rfl, rfl⟩
          simp [loadFacade, facadeBody, execStmts, execStmt, henv, hattr,
                initState]

/-- C6: the two constants are set exactly once during the load — exactly
one statement of the module body binds `__version__` and exactly one
binds `__all__`, each an assignment of the literal, and no other
statement of the facade touches either name; the facade consists of this
body alone, so nothing mutates them after load. -/
theorem facade_constants_set_once :
    facadeBody.filter (fun st => st.bindsName "__version__") =
      [.assign "__version__" (.str "0.2.0")] ∧
    facadeBody.filter (fun st => st.bindsName "__all__") =
      [.assign "__all__" (.strList ["HatchMCP"])] ∧
    (facadeBody.filter (fun st => st.bindsName "__version__")).length = 1 ∧
    (facadeBody.filter (fun st => st.bindsName "__all__")).length = 1 := by
  decide

/-- C7: a load attempt, successful or failed, performs no I/O, spawns no
thread and writes nothing outside the own namespace of the facade; and
every statement of the body is of an effect-free form. -/
theorem facade_load_no_side_effects (env : ImportEnv) :
    (attemptState env).ioTrace = [] ∧
    (attemptState env).threadsSpawned = 0 ∧
    (attemptState env).globalWrites = [] ∧
    facadeBody.all Stmt.effectFree = true := by
  refine ⟨?_, ?_, ?_, by decide⟩ <;>
  · cases henv : env "hatch_mcp" with
    | none =>
        simp [attemptState, facadeBody, execStmts, execStmt, henv, initState]
    | some md =>
        cases hattr : NS.lookup md.attrs "HatchMCP" with
        | none =>
            simp [attemptState, facadeBody, execStmts, execStmt, henv, hattr,
                  initState]
        | some v =>
            simp [attemptState, facadeBody, execStmts, execStmt, henv, hattr,
                  initState]

/-- C8: a wildcard import of the successfully loaded facade binds exactly
the one public name `HatchMCP`, while `__version__` and the `hatch_mcp`
submodule, though undeclared in the manifest, remain reachable by direct
qualified attribute access. -/
theorem facade_wildcard_vs_qualified (env : ImportEnv) (s : LoadState)
    (h : loadFacade env = .ok s) :
    wildcardNames s = ["HatchMCP"] ∧
    (NS.lookup s.ns "__version__").isSome = true ∧
    (NS.lookup s.ns "hatch_mcp").isSome = true := by
  obtain ⟨md, v, -, -, rfl⟩ := loadFacade_ok_eq env s h
  exact ⟨rfl, rfl, rfl⟩

/-- Witness for C8 at the concrete environment `goodEnv`. -/
theorem facade_wildcard_vs_qualified_witness :
    wildcardNames goodLoadState = ["HatchMCP"] ∧
    (NS.lookup goodLoadState.ns "__version__").isSome = true ∧
    (NS.lookup goodLoadState.ns "hatch_mcp").isSome = true :=
  facade_wildcard_vs_qualified goodEnv goodLoadState rfl

/-- Every state the load passes through, for any number of executed
statements: the empty initial state, the state holding only the version
binding, a resolution error raised from exactly that state, or (when the
collaborator resolves) the two post-import states. -/
theorem loadUpTo_trajectory (env : ImportEnv) (n : Nat) :
    loadUpTo env n = .ok initState ∨
    loadUpTo env n = .ok versionOnlyState ∨
    (∃ e, loadUpTo env n = .error (e, versionOnlyState)) ∨
    (∃ md v, env "hatch_mcp" = some md ∧
      NS.lookup md.attrs "HatchMCP" = some v ∧
      (loadUpTo env n = .ok ⟨[("HatchMCP", v), ("hatch_mcp", md.obj),
          ("__version__", .str "0.2.0")], [], 0, []⟩ ∨
       loadUpTo env n = .ok ⟨[("__all__", .strList ["HatchMCP"]),
          ("HatchMCP", v), ("hatch_mcp", md.obj),
          ("__version__", .str "0.2.0")], [], 0, []⟩)) := by
  match n with
  | 0 => exact Or.inl rfl
  | 1 => exact Or.inr (Or.inl rfl)
  | 2 =>
      cases henv : env "hatch_mcp" with
      | none =>
          refine Or.inr (Or.inr (Or.inl ⟨.moduleNotFound "hatch_mcp", ?_⟩))
          simp [loadUpTo, facadeBody, execStmts, execStmt, henv, initState,
                versionOnlyState]
      | some md =>
          cases hattr : NS.lookup md.attrs "HatchMCP" with
          | none =>
              refine Or.inr (Or.inr (Or.inl
                ⟨.attrNotFound "hatch_mcp" "HatchMCP", ?_⟩))
              simp [loadUpTo, facadeBody, execStmts, execStmt, henv, hattr,
                    initState, versionOnlyState]
          | some v =>
              refine Or.inr (Or.inr (Or.inr ⟨md, v, rfl, hattr, Or.inl ?_⟩))
              simp [loadUpTo, facadeBody, execStmts, execStmt, henv, hattr,
                    initState]
  | (k + 3) =>
      have htake : facadeBody.take (k + 3) = facadeBody :=
        List.take_of_length_le (by simp [facadeBody])
      cases henv : env "hatch_mcp" with
      | none =>
          refine Or.inr (Or.inr (Or.inl ⟨.moduleNotFound "hatch_mcp", ?_⟩))
          simp [loadUpTo, htake, facadeBody, execStmts, execStmt, henv,
                initState, versionOnlyState]
      | some md =>
          cases hattr : NS.lookup md.attrs "HatchMCP" with
          | none =>
              refine Or.inr (Or.inr (Or.inl
                ⟨.attrNotFound "hatch_mcp" "HatchMCP", ?_⟩))
              simp [loadUpTo, htake, facadeBody, execStmts, execStmt, henv,
                    hattr, initState, versionOnlyState]
          | some v =>
              refine Or.inr (Or.inr (Or.inr ⟨md, v, rfl, hattr, Or.inr ?_⟩))
              simp [loadUpTo, htake, facadeBody, execStmts, execStmt, henv,
                    hattr, initState]

/-- C9: the load binds the version strictly before attempting the import
and binds the manifest strictly after it — after one statement exactly
`__version__` is bound and neither `HatchMCP` nor `__all__` is; at no
point is `__all__` bound while `HatchMCP` is unbound; and any resolution
failure is raised from an in-progress namespace in which `__version__`
is already bound. -/
theorem facade_load_order (env : ImportEnv) :
    loadUpTo env 1 = .ok versionOnlyState ∧
    NS.lookup versionOnlyState.ns "__version__" = some (.str "0.2.0") ∧
    NS.lookup versionOnlyState.ns "HatchMCP" = none ∧
    NS.lookup versionOnlyState.ns "__all__" = none ∧
    (∀ n s, loadUpTo env n = .ok s →
      NS.lookup s.ns "__all__" ≠ none → NS.lookup s.ns "HatchMCP" ≠ none) ∧
    (∀ n e s, loadUpTo env n = .error (e, s) →
      NS.lookup s.ns "__version__" = some (.str "0.2.0")) := by
  refine ⟨rfl, rfl, rfl, rfl, ?_, ?_⟩
  · intro n s hok hall
    rcases loadUpTo_trajectory env n with h | h | ⟨e, h⟩ | ⟨md, v, -, -, h | h⟩ <;>
      rw [hok] at h
    · cases h; exact absurd rfl hall
    · cases h; exact absurd rfl hall
    · exact Except.noConfusion h
    · cases h; simp [NS.lookup]
    · cases h; simp [NS.lookup]
  · intro n e s herr
    rcases loadUpTo_trajectory env n with h | h | ⟨e₂, h⟩ | ⟨md, v, -, -, h | h⟩ <;>
      rw [herr] at h <;> cases h
    rfl

/-- Witness for C9: at the absent-module environment, the failure after
two statements is raised from the namespace holding only the version
binding, and that namespace maps `__version__` to the version string. -/
theorem facade_load_order_witness :
    NS.lookup versionOnlyState.ns "__version__" = some (.str "0.2.0") :=
  (facade_load_order absentEnv).2.2.2.2.2 2 (.moduleNotFound "hatch_mcp")
    versionOnlyState rfl

/-- C10: loading is deterministic — any two successful loads against the
same import environment produce the same state, in particular the same
version string, the same export manifest and the identical `HatchMCP`
object. -/
theorem facade_load_deterministic (env : ImportEnv) (s₁ s₂ : LoadState)
    (h₁ : loadFacade env = .ok s₁) (h₂ : loadFacade env = .ok s₂) :
    s₁ = s₂ ∧
    NS.lookup s₁.ns "__version__" = some (.str "0.2.0") ∧
    NS.lookup s₁.ns "__all__" = some (.strList ["HatchMCP"]) ∧
    NS.lookup s₁.ns "HatchMCP" = NS.lookup s₂.ns "HatchMCP" := by
  obtain ⟨md, v, hm, ha, rfl⟩ := loadFacade_ok_eq env s₁ h₁
  obtain ⟨md₂, v₂, hm₂, ha₂, rfl⟩ := loadFacade_ok_eq env s₂ h₂
  rw [hm] at hm₂
  cases hm₂
  rw [ha] at ha₂
  cases ha₂
  exact ⟨rfl, rfl, rfl, rfl⟩

/-- Witness for C10: two loads against `goodEnv`. -/
theorem facade_load_deterministic_witness :
    goodLoadState = goodLoadState ∧
    NS.lookup goodLoadState.ns "__version__" = some (.str "0.2.0") ∧
    NS.lookup goodLoadState.ns "__all__" = some (.strList ["HatchMCP"]) ∧
    NS.lookup goodLoadState.ns "HatchMCP" = NS.lookup goodLoadState.ns "HatchMCP" :=
  facade_load_deterministic goodEnv goodLoadState goodLoadState rfl rfl
